import Mathlib

/-!
Shallow embedding of the incident lifecycle service of the
`gestion_incidencias` backend.

The embedding follows `src/application/IncidentApplicationService.ts`
(the lifecycle service) and the two `getIncidentStatistics` variants in
`src/infraestructure/adapter/IncidentAdapter.ts`.  The persistence
gateway (TypeORM repository) is modelled as a list of incident rows;
a TypeORM `update` maps every row whose id matches and reports
`affected > 0`, i.e. whether some row matched.  JavaScript numbers that
hold ids or epoch milliseconds are modelled as `Int`; fractional
statistics values are modelled as `ℚ`.  Thrown `Error`s are modelled as
`Except` errors carrying a message (copied from the source) and a kind
from the spec's error taxonomy; kinds follow the HTTP mapping in
`IncidentController.ts` (400 validation, 404 not found, 500
infrastructure).
-/

namespace GestionIncidencias

/-- Lifecycle status of an incident (`estado` in `domain/Incident.ts`):
`"abierta" | "en_progreso" | "cerrada"`. -/
inductive Estado where
  | abierta
  | en_progreso
  | cerrada
  deriving DecidableEq, Repr

/-- Error taxonomy of the spec (§7), matching the controller's HTTP
mapping: validation → 400, not-found → 404, infrastructure → 500. -/
inductive ErrKind where
  | validation
  | notFound
  | infra
  deriving DecidableEq, Repr

/-- An error thrown by the service: its taxonomy kind and the exact
message string of the `new Error(...)` in the source. -/
structure Err where
  kind : ErrKind
  msg : String
  deriving DecidableEq, Repr

/-- A stored incident row (`domain/Incident.ts`, without the optional
hydrated relation objects, which no claim touches).  `soporteId = none`
means unassigned; timestamps are epoch milliseconds (the `creado_en` /
`actualizado_en` columns are non-nullable). -/
structure Incident where
  id : Int
  titulo : String
  descripcion : Option String
  estado : Estado
  usuarioId : Int
  soporteId : Option Int
  categoriaId : Int
  prioridadId : Int
  creadoEn : Int
  actualizadoEn : Int
  deriving DecidableEq, Repr

/-- The persistence gateway's table of incidents. -/
abbrev Store := List Incident

/-- Truthiness of a JavaScript `number | null | undefined` value:
`null`/`undefined` and `0` are falsy, every other number is truthy. -/
def optTruthy : Option Int → Bool
  | none => false
  | some n => n != 0

/-- Gateway read `getIncidentById`: first row whose id matches. -/
def portGetIncidentById (st : Store) (id : Int) : Option Incident :=
  match st with
  | [] => none
  | i :: rest => cond (i.id == id) (some i) (portGetIncidentById rest id)

/-- Gateway `update({id_incidencias: id}, fields)`: rewrite every row
whose id matches. -/
def portUpdateWhere (st : Store) (id : Int) (g : Incident → Incident) : Store :=
  st.map (fun i => cond (i.id == id) (g i) i)

/-- Result reported by a TypeORM update/delete: `affected > 0`, i.e.
some row matched the id. -/
def portAffected (st : Store) (id : Int) : Bool :=
  st.any (fun i => i.id == id)

/-- Gateway physical delete: remove every row whose id matches. -/
def portDeleteIncidentRows (st : Store) (id : Int) : Store :=
  st.filter (fun i => i.id != id)

/-- String form of a status, as interpolated into error messages. -/
def estadoStr : Estado → String
  | .abierta => "abierta"
  | .en_progreso => "en_progreso"
  | .cerrada => "cerrada"

/-- The `transicionesValidas` table of `validateStatusTransition`. -/
def transicionesValidas : Estado → List Estado
  | .abierta => [.en_progreso, .cerrada]
  | .en_progreso => [.abierta, .cerrada]
  | .cerrada => [.abierta]

/-- The message of the illegal-transition error. -/
def transitionErrMsg (estadoActual nuevoEstado : Estado) : String :=
  "No se puede cambiar de estado \"" ++ estadoStr estadoActual ++ "\" a \""
    ++ estadoStr nuevoEstado ++ "\""

/-- `validateStatusTransition(estadoActual, nuevoEstado)`: throws unless
the target is in the allowed-list of the current status. -/
def validateStatusTransition (estadoActual nuevoEstado : Estado) : Except Err Unit :=
  if nuevoEstado ∈ transicionesValidas estadoActual then Except.ok ()
  else Except.error ⟨ErrKind.validation, transitionErrMsg estadoActual nuevoEstado⟩

/-- Characters matched by JavaScript's `\s` (whitespace class), which
also covers the set removed by `String.prototype.trim`. -/
def jsWhitespaceChars : List Char :=
  [' ', '\t', '\n', '\u000B', '\u000C', '\r', '\u00A0', '\u1680',
   '\u2000', '\u2001', '\u2002', '\u2003', '\u2004', '\u2005', '\u2006',
   '\u2007', '\u2008', '\u2009', '\u200A', '\u2028', '\u2029', '\u202F',
   '\u205F', '\u3000', '\uFEFF']

/-- Test for JavaScript whitespace. -/
def isJsWhitespace (c : Char) : Bool :=
  jsWhitespaceChars.contains c

/-- JavaScript `String.prototype.trim`: strip whitespace from both
ends. -/
def jsTrim (s : String) : String :=
  String.mk (((s.data.dropWhile isJsWhitespace).reverse.dropWhile isJsWhitespace).reverse)

/-- Characters accepted by the title pattern
`/^[A-Za-zÁÉÍÓÚáéíóúÑñ0-9\s\-_.,;:()\[\]]+$/`. -/
def validTitleChar (c : Char) : Bool :=
  decide (('A' ≤ c ∧ c ≤ 'Z') ∨ ('a' ≤ c ∧ c ≤ 'z') ∨ ('0' ≤ c ∧ c ≤ '9'))
    || ['Á', 'É', 'Í', 'Ó', 'Ú', 'á', 'é', 'í', 'ó', 'ú', 'Ñ', 'ñ'].contains c
    || isJsWhitespace c
    || ['-', '_', '.', ',', ';', ':', '(', ')', '[', ']'].contains c

/-- `titleRegex.test(titulo)`: the anchored `[...]+` pattern holds iff
the string is nonempty and every character is in the class. -/
def titleRegexTest (t : String) : Bool :=
  !t.data.isEmpty && t.data.all validTitleChar

/-- `validateTitle(titulo)`: length 5–150 and the character pattern,
applied to the string as given (no trimming here). -/
def validateTitle (titulo : String) : Except Err Unit :=
  if titulo.length < 5 then
    Except.error ⟨ErrKind.validation, "El título debe tener al menos 5 caracteres"⟩
  else if titulo.length > 150 then
    Except.error ⟨ErrKind.validation, "El título no puede exceder los 150 caracteres"⟩
  else if !titleRegexTest titulo then
    Except.error ⟨ErrKind.validation, "El título contiene caracteres no válidos"⟩
  else Except.ok ()

/-- `validateDescription(descripcion?)`: only rejects a truthy string
longer than 5000 characters. -/
def validateDescription (descripcion : Option String) : Except Err Unit :=
  match descripcion with
  | some d =>
      if d ≠ "" ∧ d.length > 5000 then
        Except.error ⟨ErrKind.validation, "La descripción no puede exceder los 5000 caracteres"⟩
      else Except.ok ()
  | none => Except.ok ()

/-- Sequencing of validations: the first thrown error wins. -/
def seqE : Except Err Unit → Except Err Unit → Except Err Unit
  | Except.error e, _ => Except.error e
  | Except.ok _, b => b

/-- Throw `e` when the boolean condition holds. -/
def checkB (cond : Bool) (e : Err) : Except Err Unit :=
  if cond then Except.error e else Except.ok ()

/-- Input of `createIncident` (`Omit<Incident, "id" | "creadoEn" |
"actualizadoEn">`); `estado = none` models the field being absent, in
which case creation defaults it to `abierta`. -/
structure CreateInput where
  titulo : String
  descripcion : Option String
  estado : Option Estado
  usuarioId : Int
  soporteId : Option Int
  categoriaId : Int
  prioridadId : Int
  deriving DecidableEq, Repr

/-- `validateIncidentData(incident)`: obligatory title, title format on
the raw string, description bound, positivity of reporter, category and
priority ids, positivity of the assignee id when present.  The source's
final status-membership check is vacuous here because `Estado` only has
the three valid values. -/
def validateIncidentData (inc : CreateInput) : Except Err Unit :=
  seqE (checkB (inc.titulo == "" || (jsTrim inc.titulo).length == 0)
         ⟨ErrKind.validation, "El título de la incidencia es obligatorio"⟩)
    (seqE (validateTitle inc.titulo)
      (seqE (validateDescription inc.descripcion)
        (seqE (checkB (decide (inc.usuarioId ≤ 0))
               ⟨ErrKind.validation, "El ID del usuario reportador es obligatorio y debe ser válido"⟩)
          (seqE (checkB (decide (inc.categoriaId ≤ 0))
                 ⟨ErrKind.validation, "El ID de la categoría es obligatorio y debe ser válido"⟩)
            (seqE (checkB (decide (inc.prioridadId ≤ 0))
                   ⟨ErrKind.validation, "El ID de la prioridad es obligatorio y debe ser válido"⟩)
              (checkB (match inc.soporteId with
                       | some s => decide (s ≤ 0)
                       | none => false)
                ⟨ErrKind.validation, "El ID del técnico de soporte debe ser válido"⟩))))))

/-- The condition of `validateReferences`:
`incident.soporteId && incident.soporteId === incident.usuarioId`. -/
def reporterIsAssignee (inc : CreateInput) : Bool :=
  match inc.soporteId with
  | some s => s != 0 && s == inc.usuarioId
  | none => false

/-- `validateReferences(incident)`: a truthy assignee id equal to the
reporter id is rejected. -/
def validateReferences (inc : CreateInput) : Except Err Unit :=
  checkB (reporterIsAssignee inc)
    ⟨ErrKind.validation, "El usuario reportador no puede ser el mismo que el técnico de soporte"⟩

/-- Normalisation performed by `createIncident` before persisting:
trim title and description, default the status to `abierta`. -/
def normalizeCreate (inc : CreateInput) : CreateInput :=
  { inc with
    titulo := jsTrim inc.titulo
    descripcion := inc.descripcion.map jsTrim
    estado := some (inc.estado.getD Estado.abierta) }

/-- `createIncident(incident)`: validate the raw input, normalise,
validate references, then persist one new row with the given fresh id
and `creadoEn = actualizadoEn = now`.  Returns the new id. -/
def createIncidentRun (st : Store) (nextId now : Int) (inc : CreateInput) :
    Store × Except Err Int :=
  match validateIncidentData inc with
  | Except.error e => (st, Except.error e)
  | Except.ok _ =>
    match validateReferences (normalizeCreate inc) with
    | Except.error e => (st, Except.error e)
    | Except.ok _ =>
      (st ++ [⟨nextId, (normalizeCreate inc).titulo, (normalizeCreate inc).descripcion,
               (normalizeCreate inc).estado.getD Estado.abierta, (normalizeCreate inc).usuarioId,
               (normalizeCreate inc).soporteId, (normalizeCreate inc).categoriaId,
               (normalizeCreate inc).prioridadId, now, now⟩],
       Except.ok nextId)

/-- `changeIncidentStatus(id, nuevoEstado)`: look the incident up,
validate the transition, then write the new status through the
gateway. -/
def changeIncidentStatusRun (st : Store) (id : Int) (nuevoEstado : Estado) :
    Store × Except Err Bool :=
  match portGetIncidentById st id with
  | none => (st, Except.error ⟨ErrKind.notFound, "Incidencia no encontrada"⟩)
  | some existing =>
    match validateStatusTransition existing.estado nuevoEstado with
    | Except.error e => (st, Except.error e)
    | Except.ok _ =>
      (portUpdateWhere st id (fun i => { i with estado := nuevoEstado }),
       Except.ok (portAffected st id))

/-- Failure injection for the two gateway writes `assignIncident`
performs; a failing write throws the adapter's wrapped message and does
not modify storage. -/
structure Faults where
  changeStatusFails : Bool
  assignFails : Bool
  deriving DecidableEq, Repr

/-- The fault-free gateway. -/
def noFaults : Faults := ⟨false, false⟩

/-- `assignIncident(id, soporteId)`: reject a missing incident, reject
a closed incident, then — when a truthy assignee is given and the
incident has no truthy assignee yet — write status `en_progreso`
directly through the gateway (note: `this.port.changeIncidentStatus`,
not the validated service method), and finally write the assignee.
The returned store reflects every write performed before a failure. -/
def assignIncidentRun (f : Faults) (st : Store) (id : Int) (soporteId : Option Int) :
    Store × Except Err Bool :=
  match portGetIncidentById st id with
  | none => (st, Except.error ⟨ErrKind.notFound, "Incidencia no encontrada"⟩)
  | some existing =>
    if existing.estado = Estado.cerrada then
      (st, Except.error ⟨ErrKind.validation, "No se puede asignar una incidencia cerrada"⟩)
    else if optTruthy soporteId && !optTruthy existing.soporteId then
      if f.changeStatusFails then
        (st, Except.error ⟨ErrKind.infra, "Error al cambiar el estado de la incidencia"⟩)
      else
        let st1 := portUpdateWhere st id (fun i => { i with estado := Estado.en_progreso })
        if f.assignFails then
          (st1, Except.error ⟨ErrKind.infra, "Error al asignar la incidencia"⟩)
        else
          (portUpdateWhere st1 id (fun i => { i with soporteId := soporteId }),
           Except.ok (portAffected st1 id))
    else
      if f.assignFails then
        (st, Except.error ⟨ErrKind.infra, "Error al asignar la incidencia"⟩)
      else
        (portUpdateWhere st id (fun i => { i with soporteId := soporteId }),
         Except.ok (portAffected st id))

/-- `deleteIncident(id)`: non-positive id, missing incident and
non-closed incident are rejected in that order; otherwise the physical
removal is delegated to the gateway and its boolean result returned. -/
def deleteIncidentRun (st : Store) (id : Int) : Store × Except Err Bool :=
  if id ≤ 0 then
    (st, Except.error ⟨ErrKind.validation, "El ID de la incidencia debe ser un número positivo"⟩)
  else
    match portGetIncidentById st id with
    | none => (st, Except.error ⟨ErrKind.notFound, "Incidencia no encontrada"⟩)
    | some existing =>
      if existing.estado ≠ Estado.cerrada then
        (st, Except.error ⟨ErrKind.validation, "Solo se pueden eliminar incidencias cerradas"⟩)
      else
        (portDeleteIncidentRows st id, Except.ok (portAffected st id))

/-- Input of `updateIncident` (`Partial<Omit<Incident, "id" |
"creadoEn">>`); `none` models an absent field. -/
structure UpdateInput where
  titulo : Option String
  descripcion : Option String
  estado : Option Estado
  soporteId : Option Int
  categoriaId : Option Int
  prioridadId : Option Int
  deriving DecidableEq, Repr

/-- The validations `updateIncident` performs: title format when the
title is truthy, description bound when present, transition legality
when a status is given.  The id fields of the partial are not
validated. -/
def updateValidations (estadoActual : Estado) (u : UpdateInput) : Except Err Unit :=
  seqE (match u.titulo with
        | some t => if t ≠ "" then validateTitle t else Except.ok ()
        | none => Except.ok ())
    (seqE (match u.descripcion with
           | some d => validateDescription (some d)
           | none => Except.ok ())
      (match u.estado with
       | some e => validateStatusTransition estadoActual e
       | none => Except.ok ()))

/-- The `incidentToUpdate` object built by `updateIncident`, applied to
a row: truthy title (trimmed), present description (trimmed), truthy
status, present assignee id, truthy category and priority ids. -/
def applyUpdate (u : UpdateInput) (i : Incident) : Incident :=
  { i with
    titulo := match u.titulo with
              | some t => if t = "" then i.titulo else jsTrim t
              | none => i.titulo
    descripcion := match u.descripcion with
                   | some d => some (jsTrim d)
                   | none => i.descripcion
    estado := u.estado.getD i.estado
    soporteId := match u.soporteId with
                 | some s => some s
                 | none => i.soporteId
    categoriaId := match u.categoriaId with
                   | some c => if c = 0 then i.categoriaId else c
                   | none => i.categoriaId
    prioridadId := match u.prioridadId with
                   | some p => if p = 0 then i.prioridadId else p
                   | none => i.prioridadId }

/-- `updateIncident(id, incident)`: look the incident up, run the
update validations against its current status, then persist the
supplied fields through the gateway. -/
def updateIncidentRun (st : Store) (id : Int) (u : UpdateInput) :
    Store × Except Err Bool :=
  match portGetIncidentById st id with
  | none => (st, Except.error ⟨ErrKind.notFound, "Incidencia no encontrada"⟩)
  | some existing =>
    match updateValidations existing.estado u with
    | Except.error e => (st, Except.error e)
    | Except.ok _ =>
      (portUpdateWhere st id (applyUpdate u), Except.ok (portAffected st id))

/-- A row of the filtered incident set as the grouped-SQL variant's
raw queries obtain it (its WHERE conditions filter on `creado_en`,
`usuario_id` and `categoria_id`): the status, the joined category and
priority keys and names (`c.nombre` / `p.nombre_prioridad`; `none`
when the LEFT JOIN finds no row), and the timestamps in epoch
milliseconds.  The in-memory variant never obtains such rows: its own
query fails on every call (see `memStatsRun`). -/
structure StatRow where
  estado : Estado
  categoriaId : Int
  categoriaNombre : Option String
  prioridadId : Int
  prioridadNombre : Option String
  creadoEn : Int
  actualizadoEn : Int
  deriving DecidableEq, Repr

/-- Result shape of `getIncidentStatistics`.  The `porCategoria` /
`porPrioridad` JavaScript objects are modelled as association lists in
key-insertion order; `tiempoPromedioResolucion` is `none` when the
field is left `undefined`. -/
structure Stats where
  total : Nat
  abiertas : Nat
  enProgreso : Nat
  cerradas : Nat
  porCategoria : List (String × Nat)
  porPrioridad : List (String × Nat)
  tiempoPromedioResolucion : Option ℚ
  deriving DecidableEq, Repr

/-- JavaScript `x || default` over a possibly-null name: `null` and the
empty string fall back to the default label. -/
def nameOrDefault (o : Option String) (d : String) : String :=
  match o with
  | some s => if s = "" then d else s
  | none => d

/-- Category grouping label of a row (`"Sin categoría"` when the join
found nothing). -/
def catKey (r : StatRow) : String := nameOrDefault r.categoriaNombre "Sin categoría"

/-- Priority grouping label of a row (`"Sin prioridad"` when the join
found nothing). -/
def priKey (r : StatRow) : String := nameOrDefault r.prioridadNombre "Sin prioridad"

/-- Read a key of the modelled JavaScript object: value of the first
(and, for objects built by `alSet`, only) entry with that key. -/
def alGet (m : List (String × Nat)) (k : String) : Option Nat :=
  match m with
  | [] => none
  | p :: rest => cond (p.1 == k) (some p.2) (alGet rest k)

/-- Write a key of the modelled JavaScript object: overwrite the
existing entry in place, else append. -/
def alSet (m : List (String × Nat)) (k : String) (v : Nat) : List (String × Nat) :=
  match m with
  | [] => [(k, v)]
  | p :: rest => cond (p.1 == k) ((k, v) :: rest) (p :: alSet rest k v)

/-- `obj[k] = (obj[k] || 0) + 1`. -/
def alBump (m : List (String × Nat)) (k : String) : List (String × Nat) :=
  alSet m k ((alGet m k).getD 0 + 1)

/-- The closed rows of a set. -/
def closedRows (rows : List StatRow) : List StatRow :=
  rows.filter (fun r => r.estado == Estado.cerrada)

/-- Resolution time of one row as the in-memory variant's reducer
would compute it:
`(actualizado.getTime() - creado.getTime()) / (1000 * 60 * 60)`. -/
def memResolutionHours (r : StatRow) : ℚ :=
  ((r.actualizadoEn - r.creadoEn : Int) : ℚ) / 3600000

/-- Property (column) names of the `Category` entity
(`entities/Category.ts`, table `categorias`): its name column is
`nombre` — the entity has no `nombre_categoria`. -/
def categoriaEntityColumns : List String :=
  ["id_categorias", "nombre", "descripcion", "estado", "fecha_creacion"]

/-- Property (column) names of the `Priority` entity
(`entities/Priority.ts`, table `prioridades`). -/
def prioridadEntityColumns : List String :=
  ["id_prioridad", "nombre_prioridad", "descripcion_prioridad", "nivel_prioridad",
   "color_prioridad", "estado_prioridad", "fecha_creacion"]

/-- Property (column) names of the `Incident` entity
(`entities/Incident.ts`, table `incidencias`). -/
def incidentEntityColumns : List String :=
  ["id_incidencias", "titulo", "descripcion", "estado", "usuario_id", "soporte_id",
   "categoria_id", "prioridad_id", "creado_en", "actualizado_en"]

/-- The aliased `select` list of the in-memory variant's query builder
(`IncidentAdapter.ts`, second copy), split into alias and property. -/
def memStatsSelect : List (String × String) :=
  [("incident", "estado"), ("categoria", "nombre_categoria"),
   ("prioridad", "nombre_prioridad"), ("incident", "creado_en"),
   ("incident", "actualizado_en")]

/-- Whether one aliased selection resolves against the joined entity
(`incident` → Incident, `categoria` → Category, `prioridad` →
Priority); an unresolved selection passes through as raw SQL and the
database rejects the query with an unknown-column error. -/
def selectionResolves (sel : String × String) : Bool :=
  match sel.1 with
  | "incident" => incidentEntityColumns.contains sel.2
  | "categoria" => categoriaEntityColumns.contains sel.2
  | "prioridad" => prioridadEntityColumns.contains sel.2
  | _ => false

/-- The reduction the in-memory variant would perform on joined rows
(`IncidentAdapter.ts`, second copy, the code after `getRawMany`):
counts by `filter`, groups by incrementing a name-keyed object,
averages the exact per-incident resolution times of the closed rows.
In this snapshot the code is unreachable: the variant's select does
not resolve, so `getRawMany` always throws (see `memStatsRun`). -/
def memReduce (rows : List StatRow) : Stats :=
  { total := rows.length
    abiertas := (rows.filter (fun r => r.estado == Estado.abierta)).length
    enProgreso := (rows.filter (fun r => r.estado == Estado.en_progreso)).length
    cerradas := (rows.filter (fun r => r.estado == Estado.cerrada)).length
    porCategoria := rows.foldl (fun m r => alBump m (catKey r)) []
    porPrioridad := rows.foldl (fun m r => alBump m (priKey r)) []
    tiempoPromedioResolucion :=
      if (closedRows rows).length = 0 then none
      else some (((closedRows rows).map memResolutionHours).sum
                  / ((closedRows rows).length : ℚ)) }

/-- The in-memory-reduction variant of `getIncidentStatistics` as it
behaves in this snapshot: when every selection of its query resolves
the reducer runs, but the select names `categoria.nombre_categoria`,
which is no column of the `Category` entity (the column is `nombre`),
so the query fails on every call and the `catch` rethrows the wrapped
infrastructure error. -/
def memStatsRun (rows : List StatRow) : Except Err Stats :=
  cond (memStatsSelect.all selectionResolves)
    (Except.ok (memReduce rows))
    (Except.error ⟨ErrKind.infra, "Error al obtener estadísticas de incidencias"⟩)

/-- `TIMESTAMPDIFF(HOUR, creado_en, actualizado_en)`: the difference in
whole hours, truncated toward zero. -/
def hourDiffSql (r : StatRow) : Int :=
  Int.tdiv (r.actualizadoEn - r.creadoEn) 3600000

/-- `SUM(CASE WHEN estado = e THEN 1 ELSE 0 END)` of the grouped-SQL
variant. -/
def sqlCountCase (rows : List StatRow) (e : Estado) : Nat :=
  (rows.map (fun r => if r.estado == e then 1 else 0)).sum

/-- The `GROUP BY incident.categoria_id, c.nombre` keys: the distinct
(category id, joined name) pairs occurring in the row set. -/
def catGroupKeys (rows : List StatRow) : List (Int × Option String) :=
  (rows.map (fun r => (r.categoriaId, r.categoriaNombre))).dedup

/-- `COUNT(*)` of one category group. -/
def catGroupCount (rows : List StatRow) (key : Int × Option String) : Nat :=
  (rows.filter (fun r => (r.categoriaId, r.categoriaNombre) == key)).length

/-- The `GROUP BY incident.prioridad_id, p.nombre_prioridad` keys. -/
def priGroupKeys (rows : List StatRow) : List (Int × Option String) :=
  (rows.map (fun r => (r.prioridadId, r.prioridadNombre))).dedup

/-- `COUNT(*)` of one priority group. -/
def priGroupCount (rows : List StatRow) (key : Int × Option String) : Nat :=
  (rows.filter (fun r => (r.prioridadId, r.prioridadNombre) == key)).length

/-- The grouped-SQL variant's `porCategoria` object: one write per SQL
group; two groups sharing a display name overwrite one another (the
`forEach` assigns `porCategoria[nombre] = cantidad`).  The SQL `ORDER
BY cantidad DESC` only reorders the writes, which is observable only
when two groups share a name. -/
def sqlPorCategoria (rows : List StatRow) : List (String × Nat) :=
  (catGroupKeys rows).foldl
    (fun m key => alSet m (nameOrDefault key.2 "Sin categoría") (catGroupCount rows key)) []

/-- The grouped-SQL variant's `porPrioridad` object. -/
def sqlPorPrioridad (rows : List StatRow) : List (String × Nat) :=
  (priGroupKeys rows).foldl
    (fun m key => alSet m (nameOrDefault key.2 "Sin prioridad") (priGroupCount rows key)) []

/-- The grouped-SQL-query variant of `getIncidentStatistics`
(`IncidentAdapter.ts`, first copy): per-status counts by `SUM(CASE
...)`, grouped counts keyed by joined name, and — only when closed
incidents exist — `AVG(TIMESTAMPDIFF(HOUR, creado_en,
actualizado_en))` over the closed rows. -/
def sqlStats (rows : List StatRow) : Stats :=
  { total := rows.length
    abiertas := sqlCountCase rows Estado.abierta
    enProgreso := sqlCountCase rows Estado.en_progreso
    cerradas := sqlCountCase rows Estado.cerrada
    porCategoria := sqlPorCategoria rows
    porPrioridad := sqlPorPrioridad rows
    tiempoPromedioResolucion :=
      if 0 < sqlCountCase rows Estado.cerrada then
        some ((((closedRows rows).map hourDiffSql).sum : ℚ)
               / ((closedRows rows).length : ℚ))
      else none }

/-! Helper lemmas about the gateway model. -/

/-- A row found by id indeed carries that id. -/
theorem portGetIncidentById_id {st : Store} {id : Int} {inc : Incident}
    (h : portGetIncidentById st id = some inc) : inc.id = id := by
  induction st with
  | nil => simp [portGetIncidentById] at h
  | cons a l ih =>
    cases ha : (a.id == id)
    · rw [portGetIncidentById, ha, cond_false] at h
      exact ih h
    · rw [portGetIncidentById, ha, cond_true] at h
      injection h with h
      subst h
      simpa using ha

/-- A gateway write matched some row whenever the lookup found one. -/
theorem portAffected_of_find {st : Store} {id : Int} {inc : Incident}
    (h : portGetIncidentById st id = some inc) : portAffected st id = true := by
  induction st with
  | nil => simp [portGetIncidentById] at h
  | cons a l ih =>
    unfold portAffected
    rw [List.any_cons]
    cases ha : (a.id == id)
    · rw [portGetIncidentById, ha, cond_false] at h
      rw [Bool.false_or]
      exact ih h
    · rw [Bool.true_or]

/-- A gateway write rewrites exactly the looked-up row (for
id-preserving field updates). -/
theorem portGet_portUpdateWhere {st : Store} {id : Int} {g : Incident → Incident}
    (hg : ∀ i, (g i).id = i.id) {inc : Incident}
    (h : portGetIncidentById st id = some inc) :
    portGetIncidentById (portUpdateWhere st id g) id = some (g inc) := by
  induction st with
  | nil => simp [portGetIncidentById] at h
  | cons a l ih =>
    unfold portUpdateWhere
    simp only [List.map_cons]
    rw [portGetIncidentById]
    cases ha : (a.id == id)
    · rw [portGetIncidentById, ha, cond_false] at h
      simp only [cond_false]
      rw [ha, cond_false]
      exact ih h
    · rw [portGetIncidentById, ha, cond_true] at h
      injection h with h
      subst h
      simp only [cond_true]
      rw [hg, ha, cond_true]

/-- Claim C1: for every existing incident with current status `s` and
every requested target status `t`, `changeStatus(id, t)` succeeds
exactly when `t` is in the allowed-list of the transition table
(abierta → {en_progreso, cerrada}; en_progreso → {abierta, cerrada};
cerrada → {abierta}) and fails with a `ValidationError` otherwise; in
particular the same-state transition `s → s` always fails. -/
theorem C1_changeStatus_transition_table (st : Store) (id : Int) (t : Estado)
    (inc : Incident) (h : portGetIncidentById st id = some inc) :
    (transicionesValidas Estado.abierta = [Estado.en_progreso, Estado.cerrada]
      ∧ transicionesValidas Estado.en_progreso = [Estado.abierta, Estado.cerrada]
      ∧ transicionesValidas Estado.cerrada = [Estado.abierta])
    ∧ ((changeIncidentStatusRun st id t).2 = Except.ok true
        ↔ t ∈ transicionesValidas inc.estado)
    ∧ (t ∉ transicionesValidas inc.estado →
        (changeIncidentStatusRun st id t).2
          = Except.error ⟨ErrKind.validation, transitionErrMsg inc.estado t⟩)
    ∧ (∀ s : Estado, s ∉ transicionesValidas s) := by
  refine ⟨⟨rfl, rfl, rfl⟩, ?_, ?_, fun s => by cases s <;> decide⟩
  · unfold changeIncidentStatusRun validateStatusTransition
    rw [h]
    by_cases ht : t ∈ transicionesValidas inc.estado
    · simp [ht, portAffected_of_find h]
    · simp [ht]
  · intro ht
    unfold changeIncidentStatusRun validateStatusTransition
    rw [h]
    simp [ht]

/-- Witness for C1 at a one-row store holding an open incident. -/
theorem C1_changeStatus_transition_table_witness :
    portGetIncidentById [⟨1, "Impresora dañada", none, Estado.abierta, 1, none, 2, 1, 0, 0⟩] 1
        = some ⟨1, "Impresora dañada", none, Estado.abierta, 1, none, 2, 1, 0, 0⟩
    ∧ ((transicionesValidas Estado.abierta = [Estado.en_progreso, Estado.cerrada]
        ∧ transicionesValidas Estado.en_progreso = [Estado.abierta, Estado.cerrada]
        ∧ transicionesValidas Estado.cerrada = [Estado.abierta])
      ∧ ((changeIncidentStatusRun
            [⟨1, "Impresora dañada", none, Estado.abierta, 1, none, 2, 1, 0, 0⟩] 1
            Estado.en_progreso).2 = Except.ok true
          ↔ Estado.en_progreso ∈ transicionesValidas Estado.abierta)
      ∧ (Estado.en_progreso ∉ transicionesValidas Estado.abierta →
          (changeIncidentStatusRun
            [⟨1, "Impresora dañada", none, Estado.abierta, 1, none, 2, 1, 0, 0⟩] 1
            Estado.en_progreso).2
            = Except.error ⟨ErrKind.validation,
                transitionErrMsg Estado.abierta Estado.en_progreso⟩)
      ∧ (∀ s : Estado, s ∉ transicionesValidas s)) :=
  ⟨by decide,
   C1_changeStatus_transition_table
     [⟨1, "Impresora dañada", none, Estado.abierta, 1, none, 2, 1, 0, 0⟩] 1
     Estado.en_progreso
     ⟨1, "Impresora dañada", none, Estado.abierta, 1, none, 2, 1, 0, 0⟩ (by decide)⟩

/-- Unfolding of `assignIncidentRun` once the incident lookup has
succeeded. -/
theorem assignIncidentRun_eq (f : Faults) (st : Store) (id : Int) (s : Option Int)
    {inc : Incident} (h : portGetIncidentById st id = some inc) :
    assignIncidentRun f st id s =
      if inc.estado = Estado.cerrada then
        (st, Except.error ⟨ErrKind.validation, "No se puede asignar una incidencia cerrada"⟩)
      else if optTruthy s && !optTruthy inc.soporteId then
        if f.changeStatusFails then
          (st, Except.error ⟨ErrKind.infra, "Error al cambiar el estado de la incidencia"⟩)
        else
          let st1 := portUpdateWhere st id (fun i => { i with estado := Estado.en_progreso })
          if f.assignFails then
            (st1, Except.error ⟨ErrKind.infra, "Error al asignar la incidencia"⟩)
          else
            (portUpdateWhere st1 id (fun i => { i with soporteId := s }),
             Except.ok (portAffected st1 id))
      else
        if f.assignFails then
          (st, Except.error ⟨ErrKind.infra, "Error al asignar la incidencia"⟩)
        else
          (portUpdateWhere st id (fun i => { i with soporteId := s }),
           Except.ok (portAffected st id)) := by
  unfold assignIncidentRun
  rw [h]

/-- Claim C2, counterexample: the claim says the status change of
`assign` is validated against the transition table, but the source
writes `en_progreso` directly through the gateway
(`this.port.changeIncidentStatus`), skipping `validateStatusTransition`.
On an existing, unassigned incident whose status is already
`en_progreso`, the table forbids the self-transition
`en_progreso → en_progreso`, yet `assign(1, 5)` succeeds and performs
both writes. -/
theorem C2_assign_skips_transition_validation :
    (assignIncidentRun noFaults
        [⟨1, "Teclado dañado", none, Estado.en_progreso, 1, none, 2, 1, 0, 0⟩] 1 (some 5)).2
      = Except.ok true
    ∧ (assignIncidentRun noFaults
        [⟨1, "Teclado dañado", none, Estado.en_progreso, 1, none, 2, 1, 0, 0⟩] 1 (some 5)).1
      = [⟨1, "Teclado dañado", none, Estado.en_progreso, 1, some 5, 2, 1, 0, 0⟩]
    ∧ Estado.en_progreso ∉ transicionesValidas Estado.en_progreso
    ∧ validateStatusTransition Estado.en_progreso Estado.en_progreso
      = Except.error ⟨ErrKind.validation,
          transitionErrMsg Estado.en_progreso Estado.en_progreso⟩ :=
  ⟨rfl, by decide, by decide, rfl⟩

/-- Claim C2 (amended): for every existing, non-closed incident with no
current assignee, `assign(id, X)` with truthy `X` results in status
`en_progreso` and assignee `X`; the status is written directly through
the gateway without transition-table validation (so it also succeeds
when the current status is already `en_progreso`). -/
theorem C2_assign_unassigned_sets_en_progreso (st : Store) (id x : Int)
    (inc : Incident) (h : portGetIncidentById st id = some inc)
    (hne : inc.estado ≠ Estado.cerrada)
    (hun : inc.soporteId = none)
    (hx : x ≠ 0) :
    (assignIncidentRun noFaults st id (some x)).2 = Except.ok true
    ∧ portGetIncidentById (assignIncidentRun noFaults st id (some x)).1 id
        = some { inc with estado := Estado.en_progreso, soporteId := some x } := by
  have hb : (optTruthy (some x) && !optTruthy inc.soporteId) = true := by
    simp [optTruthy, hun, hx]
  have hget1 : portGetIncidentById
      (portUpdateWhere st id (fun i => { i with estado := Estado.en_progreso })) id
      = some { inc with estado := Estado.en_progreso } := by
    refine portGet_portUpdateWhere ?_ h
    intro i
    rfl
  have hget2 : portGetIncidentById
      (portUpdateWhere
        (portUpdateWhere st id (fun i => { i with estado := Estado.en_progreso }))
        id (fun i => { i with soporteId := some x })) id
      = some { inc with estado := Estado.en_progreso, soporteId := some x } := by
    refine portGet_portUpdateWhere ?_ hget1
    intro i
    rfl
  have hrun : assignIncidentRun noFaults st id (some x)
      = (portUpdateWhere
           (portUpdateWhere st id (fun i => { i with estado := Estado.en_progreso }))
           id (fun i => { i with soporteId := some x }),
         Except.ok (portAffected
           (portUpdateWhere st id (fun i => { i with estado := Estado.en_progreso })) id)) := by
    rw [assignIncidentRun_eq noFaults st id (some x) h, if_neg hne, if_pos hb]
    rfl
  rw [hrun]
  exact ⟨by rw [portAffected_of_find hget1], hget2⟩

/-- Witness for C2 (amended) at a one-row store holding an open,
unassigned incident. -/
theorem C2_assign_unassigned_sets_en_progreso_witness :
    portGetIncidentById [⟨1, "Impresora dañada", none, Estado.abierta, 1, none, 2, 1, 0, 0⟩] 1
        = some ⟨1, "Impresora dañada", none, Estado.abierta, 1, none, 2, 1, 0, 0⟩
    ∧ (⟨1, "Impresora dañada", none, Estado.abierta, 1, none, 2, 1, 0, 0⟩ : Incident).estado
        ≠ Estado.cerrada
    ∧ ((assignIncidentRun noFaults
          [⟨1, "Impresora dañada", none, Estado.abierta, 1, none, 2, 1, 0, 0⟩] 1 (some 5)).2
        = Except.ok true
      ∧ portGetIncidentById
          (assignIncidentRun noFaults
            [⟨1, "Impresora dañada", none, Estado.abierta, 1, none, 2, 1, 0, 0⟩] 1 (some 5)).1 1
        = some { (⟨1, "Impresora dañada", none, Estado.abierta, 1, none, 2, 1, 0, 0⟩ : Incident)
                  with estado := Estado.en_progreso, soporteId := some 5 }) :=
  ⟨by decide, by decide,
   C2_assign_unassigned_sets_en_progreso
     [⟨1, "Impresora dañada", none, Estado.abierta, 1, none, 2, 1, 0, 0⟩] 1 5
     ⟨1, "Impresora dañada", none, Estado.abierta, 1, none, 2, 1, 0, 0⟩
     (by decide) (by decide) (by decide) (by decide)⟩

/-- Claim C7: for every existing incident, `assign` fails with a
`ValidationError` exactly when the incident is `cerrada`; and
`assign(id, null)` on a non-closed incident always succeeds — whatever
the prior assignee — clearing the assignee and leaving the status (and
every other field) unchanged. -/
theorem C7_assign_closed_only_validation_error (st : Store) (id : Int)
    (inc : Incident) (h : portGetIncidentById st id = some inc) :
    (∀ s : Option Int,
      (∃ m, (assignIncidentRun noFaults st id s).2 = Except.error ⟨ErrKind.validation, m⟩)
        ↔ inc.estado = Estado.cerrada)
    ∧ (inc.estado ≠ Estado.cerrada →
        (assignIncidentRun noFaults st id none).2 = Except.ok true
        ∧ portGetIncidentById (assignIncidentRun noFaults st id none).1 id
            = some { inc with soporteId := none }) := by
  constructor
  · intro s
    constructor
    · rintro ⟨m, hm⟩
      by_contra hcl
      rw [assignIncidentRun_eq noFaults st id s h, if_neg hcl] at hm
      cases hb : (optTruthy s && !optTruthy inc.soporteId) <;>
        simp [hb, noFaults] at hm
    · intro hcl
      refine ⟨"No se puede asignar una incidencia cerrada", ?_⟩
      rw [assignIncidentRun_eq noFaults st id s h, if_pos hcl]
  · intro hne
    have hb : ¬((optTruthy none && !optTruthy inc.soporteId) = true) := by
      simp [optTruthy]
    have hget : portGetIncidentById
        (portUpdateWhere st id (fun i => { i with soporteId := none })) id
        = some { inc with soporteId := none } := by
      refine portGet_portUpdateWhere ?_ h
      intro i
      rfl
    have hrun : assignIncidentRun noFaults st id none
        = (portUpdateWhere st id (fun i => { i with soporteId := none }),
           Except.ok (portAffected st id)) := by
      rw [assignIncidentRun_eq noFaults st id none h, if_neg hne, if_neg hb]
      rfl
    rw [hrun]
    exact ⟨by rw [portAffected_of_find h], hget⟩

/-- Witness for C7 at a one-row store holding an incident in progress
with an assignee. -/
theorem C7_assign_closed_only_validation_error_witness :
    portGetIncidentById [⟨1, "Red caída", none, Estado.en_progreso, 1, some 9, 2, 1, 0, 0⟩] 1
        = some ⟨1, "Red caída", none, Estado.en_progreso, 1, some 9, 2, 1, 0, 0⟩
    ∧ ((∀ s : Option Int,
          (∃ m, (assignIncidentRun noFaults
              [⟨1, "Red caída", none, Estado.en_progreso, 1, some 9, 2, 1, 0, 0⟩] 1 s).2
            = Except.error ⟨ErrKind.validation, m⟩)
          ↔ (⟨1, "Red caída", none, Estado.en_progreso, 1, some 9, 2, 1, 0, 0⟩ : Incident).estado
              = Estado.cerrada)
      ∧ ((⟨1, "Red caída", none, Estado.en_progreso, 1, some 9, 2, 1, 0, 0⟩ : Incident).estado
            ≠ Estado.cerrada →
          (assignIncidentRun noFaults
              [⟨1, "Red caída", none, Estado.en_progreso, 1, some 9, 2, 1, 0, 0⟩] 1 none).2
            = Except.ok true
          ∧ portGetIncidentById
              (assignIncidentRun noFaults
                [⟨1, "Red caída", none, Estado.en_progreso, 1, some 9, 2, 1, 0, 0⟩] 1 none).1 1
            = some { (⟨1, "Red caída", none, Estado.en_progreso, 1, some 9, 2, 1, 0, 0⟩ : Incident)
                      with soporteId := none })) :=
  ⟨by decide,
   C7_assign_closed_only_validation_error
     [⟨1, "Red caída", none, Estado.en_progreso, 1, some 9, 2, 1, 0, 0⟩] 1
     ⟨1, "Red caída", none, Estado.en_progreso, 1, some 9, 2, 1, 0, 0⟩ (by decide)⟩

/-- Claim C6, counterexample: `assignIncident` issues two separate
gateway writes with no transaction.  On an open, unassigned incident,
when the gateway's assignee write fails after the status write
succeeded, the caller sees an error yet the incident's status has
changed to `en_progreso` while the assignee is still unset — a partial
write, so the state is neither fully updated nor left unchanged. -/
theorem C6_assign_partial_write :
    (assignIncidentRun ⟨false, true⟩
        [⟨1, "Pantalla rota", none, Estado.abierta, 1, none, 2, 1, 0, 0⟩] 1 (some 5)).2
      = Except.error ⟨ErrKind.infra, "Error al asignar la incidencia"⟩
    ∧ (assignIncidentRun ⟨false, true⟩
        [⟨1, "Pantalla rota", none, Estado.abierta, 1, none, 2, 1, 0, 0⟩] 1 (some 5)).1
      = [⟨1, "Pantalla rota", none, Estado.en_progreso, 1, none, 2, 1, 0, 0⟩]
    ∧ [(⟨1, "Pantalla rota", none, Estado.en_progreso, 1, none, 2, 1, 0, 0⟩ : Incident)]
      ≠ [⟨1, "Pantalla rota", none, Estado.abierta, 1, none, 2, 1, 0, 0⟩] :=
  ⟨rfl, by decide, by decide⟩

/-- Claim C6 (amended): `assign(id, X)` on an unassigned non-closed
incident performs two sequential gateway writes — status first, then
assignee.  A failing status write leaves the store unchanged; a failing
assignee write after a successful status write leaves the status
changed to `en_progreso` with the assignee unset (a partial write); and
with no gateway failure both fields end up written. -/
theorem C6_assign_two_sequential_writes (st : Store) (id x : Int)
    (inc : Incident) (h : portGetIncidentById st id = some inc)
    (hne : inc.estado ≠ Estado.cerrada)
    (hun : inc.soporteId = none)
    (hx : x ≠ 0) :
    (∀ b : Bool, assignIncidentRun ⟨true, b⟩ st id (some x)
        = (st, Except.error ⟨ErrKind.infra, "Error al cambiar el estado de la incidencia"⟩))
    ∧ (assignIncidentRun ⟨false, true⟩ st id (some x)).2
        = Except.error ⟨ErrKind.infra, "Error al asignar la incidencia"⟩
    ∧ portGetIncidentById (assignIncidentRun ⟨false, true⟩ st id (some x)).1 id
        = some { inc with estado := Estado.en_progreso }
    ∧ (assignIncidentRun noFaults st id (some x)).2 = Except.ok true
    ∧ portGetIncidentById (assignIncidentRun noFaults st id (some x)).1 id
        = some { inc with estado := Estado.en_progreso, soporteId := some x } := by
  have hb : (optTruthy (some x) && !optTruthy inc.soporteId) = true := by
    simp [optTruthy, hun, hx]
  have hget1 : portGetIncidentById
      (portUpdateWhere st id (fun i => { i with estado := Estado.en_progreso })) id
      = some { inc with estado := Estado.en_progreso } := by
    refine portGet_portUpdateWhere ?_ h
    intro i
    rfl
  have hget2 : portGetIncidentById
      (portUpdateWhere
        (portUpdateWhere st id (fun i => { i with estado := Estado.en_progreso }))
        id (fun i => { i with soporteId := some x })) id
      = some { inc with estado := Estado.en_progreso, soporteId := some x } := by
    refine portGet_portUpdateWhere ?_ hget1
    intro i
    rfl
  refine ⟨fun b => ?_, ?_, ?_, ?_, ?_⟩
  · rw [assignIncidentRun_eq ⟨true, b⟩ st id (some x) h, if_neg hne, if_pos hb]
    rfl
  · rw [assignIncidentRun_eq ⟨false, true⟩ st id (some x) h, if_neg hne, if_pos hb]
    rfl
  · have hrun : (assignIncidentRun ⟨false, true⟩ st id (some x)).1
        = portUpdateWhere st id (fun i => { i with estado := Estado.en_progreso }) := by
      rw [assignIncidentRun_eq ⟨false, true⟩ st id (some x) h, if_neg hne, if_pos hb]
      rfl
    rw [hrun]
    exact hget1
  · have hrun : (assignIncidentRun noFaults st id (some x)).2
        = Except.ok (portAffected
            (portUpdateWhere st id (fun i => { i with estado := Estado.en_progreso })) id) := by
      rw [assignIncidentRun_eq noFaults st id (some x) h, if_neg hne, if_pos hb]
      rfl
    rw [hrun, portAffected_of_find hget1]
  · have hrun : (assignIncidentRun noFaults st id (some x)).1
        = portUpdateWhere
            (portUpdateWhere st id (fun i => { i with estado := Estado.en_progreso }))
            id (fun i => { i with soporteId := some x }) := by
      rw [assignIncidentRun_eq noFaults st id (some x) h, if_neg hne, if_pos hb]
      rfl
    rw [hrun]
    exact hget2

/-- Witness for C6 (amended) at a one-row store holding an open,
unassigned incident. -/
theorem C6_assign_two_sequential_writes_witness :
    portGetIncidentById [⟨1, "Pantalla azul", none, Estado.abierta, 1, none, 2, 1, 0, 0⟩] 1
        = some ⟨1, "Pantalla azul", none, Estado.abierta, 1, none, 2, 1, 0, 0⟩
    ∧ ((∀ b : Bool, assignIncidentRun ⟨true, b⟩
          [⟨1, "Pantalla azul", none, Estado.abierta, 1, none, 2, 1, 0, 0⟩] 1 (some 5)
        = ([⟨1, "Pantalla azul", none, Estado.abierta, 1, none, 2, 1, 0, 0⟩],
           Except.error ⟨ErrKind.infra, "Error al cambiar el estado de la incidencia"⟩))
      ∧ (assignIncidentRun ⟨false, true⟩
          [⟨1, "Pantalla azul", none, Estado.abierta, 1, none, 2, 1, 0, 0⟩] 1 (some 5)).2
        = Except.error ⟨ErrKind.infra, "Error al asignar la incidencia"⟩
      ∧ portGetIncidentById (assignIncidentRun ⟨false, true⟩
          [⟨1, "Pantalla azul", none, Estado.abierta, 1, none, 2, 1, 0, 0⟩] 1 (some 5)).1 1
        = some { (⟨1, "Pantalla azul", none, Estado.abierta, 1, none, 2, 1, 0, 0⟩ : Incident)
                  with estado := Estado.en_progreso }
      ∧ (assignIncidentRun noFaults
          [⟨1, "Pantalla azul", none, Estado.abierta, 1, none, 2, 1, 0, 0⟩] 1 (some 5)).2
        = Except.ok true
      ∧ portGetIncidentById (assignIncidentRun noFaults
          [⟨1, "Pantalla azul", none, Estado.abierta, 1, none, 2, 1, 0, 0⟩] 1 (some 5)).1 1
        = some { (⟨1, "Pantalla azul", none, Estado.abierta, 1, none, 2, 1, 0, 0⟩ : Incident)
                  with estado := Estado.en_progreso, soporteId := some 5 }) :=
  ⟨by decide,
   C6_assign_two_sequential_writes
     [⟨1, "Pantalla azul", none, Estado.abierta, 1, none, 2, 1, 0, 0⟩] 1 5
     ⟨1, "Pantalla azul", none, Estado.abierta, 1, none, 2, 1, 0, 0⟩
     (by decide) (by decide) (by decide) (by decide)⟩

/-- Claim C8, counterexample: the claim says `delete(id)` fails with a
`NotFoundError` whenever no incident with that id exists, but for
`id = 0` on an empty store the source throws the positivity
`ValidationError` (mapped to HTTP 400 by the controller), not the
not-found error. -/
theorem C8_delete_zero_id_not_notfound :
    portGetIncidentById [] 0 = none
    ∧ (deleteIncidentRun [] 0).2
      = Except.error ⟨ErrKind.validation, "El ID de la incidencia debe ser un número positivo"⟩
    ∧ ErrKind.validation ≠ ErrKind.notFound :=
  ⟨rfl, rfl, by decide⟩

/-- Claim C8 (amended): `delete(id)` fails with a `ValidationError`
when `id` is not positive; for positive ids it fails with a
`NotFoundError` when no incident exists, fails with a `ValidationError`
when the incident exists but is not `cerrada`, and only when the status
is `cerrada` delegates physical removal to the gateway, returning its
boolean result. -/
theorem C8_delete_only_closed (st : Store) (id : Int) :
    (id ≤ 0 → deleteIncidentRun st id
        = (st, Except.error ⟨ErrKind.validation,
            "El ID de la incidencia debe ser un número positivo"⟩))
    ∧ (0 < id → portGetIncidentById st id = none →
        deleteIncidentRun st id
          = (st, Except.error ⟨ErrKind.notFound, "Incidencia no encontrada"⟩))
    ∧ (∀ inc : Incident, 0 < id → portGetIncidentById st id = some inc →
        inc.estado ≠ Estado.cerrada →
        deleteIncidentRun st id
          = (st, Except.error ⟨ErrKind.validation, "Solo se pueden eliminar incidencias cerradas"⟩))
    ∧ (∀ inc : Incident, 0 < id → portGetIncidentById st id = some inc →
        inc.estado = Estado.cerrada →
        deleteIncidentRun st id
          = (portDeleteIncidentRows st id, Except.ok (portAffected st id))) := by
  refine ⟨fun hle => ?_, fun hpos hnone => ?_, fun inc hpos hsome hne => ?_,
          fun inc hpos hsome hcl => ?_⟩
  · unfold deleteIncidentRun
    rw [if_pos hle]
  · unfold deleteIncidentRun
    rw [if_neg (by omega), hnone]
  · unfold deleteIncidentRun
    rw [if_neg (by omega), hsome]
    simp only [if_pos hne]
  · unfold deleteIncidentRun
    rw [if_neg (by omega), hsome]
    simp only [hcl, if_neg (by simp : ¬(Estado.cerrada ≠ Estado.cerrada))]

/-- Witness for C8 (amended) at a one-row store holding a closed
incident, probed with its own id. -/
theorem C8_delete_only_closed_witness :
    (((1 : Int) ≤ 0 → deleteIncidentRun
          [⟨1, "Disco lleno", none, Estado.cerrada, 1, none, 2, 1, 0, 0⟩] 1
        = ([⟨1, "Disco lleno", none, Estado.cerrada, 1, none, 2, 1, 0, 0⟩],
           Except.error ⟨ErrKind.validation,
             "El ID de la incidencia debe ser un número positivo"⟩))
      ∧ ((0 : Int) < 1 →
          portGetIncidentById [⟨1, "Disco lleno", none, Estado.cerrada, 1, none, 2, 1, 0, 0⟩] 1
            = none →
          deleteIncidentRun [⟨1, "Disco lleno", none, Estado.cerrada, 1, none, 2, 1, 0, 0⟩] 1
            = ([⟨1, "Disco lleno", none, Estado.cerrada, 1, none, 2, 1, 0, 0⟩],
               Except.error ⟨ErrKind.notFound, "Incidencia no encontrada"⟩))
      ∧ (∀ inc : Incident, (0 : Int) < 1 →
          portGetIncidentById [⟨1, "Disco lleno", none, Estado.cerrada, 1, none, 2, 1, 0, 0⟩] 1
            = some inc →
          inc.estado ≠ Estado.cerrada →
          deleteIncidentRun [⟨1, "Disco lleno", none, Estado.cerrada, 1, none, 2, 1, 0, 0⟩] 1
            = ([⟨1, "Disco lleno", none, Estado.cerrada, 1, none, 2, 1, 0, 0⟩],
               Except.error ⟨ErrKind.validation, "Solo se pueden eliminar incidencias cerradas"⟩))
      ∧ (∀ inc : Incident, (0 : Int) < 1 →
          portGetIncidentById [⟨1, "Disco lleno", none, Estado.cerrada, 1, none, 2, 1, 0, 0⟩] 1
            = some inc →
          inc.estado = Estado.cerrada →
          deleteIncidentRun [⟨1, "Disco lleno", none, Estado.cerrada, 1, none, 2, 1, 0, 0⟩] 1
            = (portDeleteIncidentRows
                 [⟨1, "Disco lleno", none, Estado.cerrada, 1, none, 2, 1, 0, 0⟩] 1,
               Except.ok (portAffected
                 [⟨1, "Disco lleno", none, Estado.cerrada, 1, none, 2, 1, 0, 0⟩] 1)))) :=
  C8_delete_only_closed [⟨1, "Disco lleno", none, Estado.cerrada, 1, none, 2, 1, 0, 0⟩] 1

/-! Helper lemmas about the validation combinators. -/

/-- A validation sequence succeeds iff both parts do. -/
theorem seqE_eq_ok {a b : Except Err Unit} :
    seqE a b = Except.ok () ↔ a = Except.ok () ∧ b = Except.ok () := by
  cases a with
  | error e => simp [seqE]
  | ok u => cases u; simp [seqE]

/-- A validation sequence fails with the first error thrown. -/
theorem seqE_eq_error {a b : Except Err Unit} {e : Err} :
    seqE a b = Except.error e
      ↔ a = Except.error e ∨ (a = Except.ok () ∧ b = Except.error e) := by
  cases a with
  | error f => simp [seqE]
  | ok u => cases u; simp [seqE]

/-- A boolean check passes iff its condition is false. -/
theorem checkB_eq_ok {c : Bool} {e : Err} :
    checkB c e = Except.ok () ↔ c = false := by
  cases c <;> simp [checkB]

/-- Every error thrown by `validateTitle` is a validation error. -/
theorem validateTitle_error_kind {t : String} {e : Err}
    (h : validateTitle t = Except.error e) : e.kind = ErrKind.validation := by
  unfold validateTitle at h
  split_ifs at h
  · injection h with h
    rw [← h]
  · injection h with h
    rw [← h]
  · injection h with h
    rw [← h]

/-- Every error thrown by `validateDescription` is a validation
error. -/
theorem validateDescription_error_kind {d : Option String} {e : Err}
    (h : validateDescription d = Except.error e) : e.kind = ErrKind.validation := by
  cases d with
  | none => exact Except.noConfusion h
  | some s =>
    have h2 : (if s ≠ "" ∧ s.length > 5000 then
        Except.error (⟨ErrKind.validation,
          "La descripción no puede exceder los 5000 caracteres"⟩ : Err)
      else Except.ok ()) = Except.error e := h
    split_ifs at h2
    injection h2 with h2
    rw [← h2]

/-- Every error thrown by `validateStatusTransition` is a validation
error. -/
theorem validateStatusTransition_error_kind {a b : Estado} {e : Err}
    (h : validateStatusTransition a b = Except.error e) : e.kind = ErrKind.validation := by
  unfold validateStatusTransition at h
  split_ifs at h
  injection h with h
  rw [← h]

/-- Every error thrown by the update validations is a validation
error. -/
theorem updateValidations_error_kind {ea : Estado} {u : UpdateInput} {e : Err}
    (h : updateValidations ea u = Except.error e) : e.kind = ErrKind.validation := by
  obtain ⟨ut, ud, ue, us, uc, up⟩ := u
  unfold updateValidations at h
  rcases seqE_eq_error.mp h with h1 | ⟨-, h2⟩
  · cases ut with
    | none => exact Except.noConfusion h1
    | some t =>
      have h1b : (if t ≠ "" then validateTitle t else Except.ok ()) = Except.error e := h1
      split_ifs at h1b
      exact validateTitle_error_kind h1b
  · rcases seqE_eq_error.mp h2 with h3 | ⟨-, h4⟩
    · cases ud with
      | none => exact Except.noConfusion h3
      | some d =>
        have h3b : validateDescription (some d) = Except.error e := h3
        exact validateDescription_error_kind h3b
    · cases ue with
      | none => exact Except.noConfusion h4
      | some s =>
        have h4b : validateStatusTransition ea s = Except.error e := h4
        exact validateStatusTransition_error_kind h4b

/-- Unfolding of `updateIncidentRun` once the incident lookup has
succeeded. -/
theorem updateIncidentRun_eq (st : Store) (id : Int) (u : UpdateInput)
    {inc : Incident} (h : portGetIncidentById st id = some inc) :
    updateIncidentRun st id u =
      match updateValidations inc.estado u with
      | Except.error e => (st, Except.error e)
      | Except.ok _ =>
        (portUpdateWhere st id (applyUpdate u), Except.ok (portAffected st id)) := by
  unfold updateIncidentRun
  rw [h]

/-- Claim C5, counterexample: the claim says every id field supplied in
the partial update is re-validated for positivity, but `updateIncident`
never checks `soporteId`: updating an existing open incident with
`soporteId = -5` — which `createIncident`'s `validateIncidentData`
rejects — succeeds and persists the negative assignee id. -/
theorem C5_update_skips_id_positivity :
    (updateIncidentRun [⟨1, "Impresora dañada", none, Estado.abierta, 1, none, 2, 1, 0, 0⟩] 1
        ⟨none, none, none, some (-5), none, none⟩).2 = Except.ok true
    ∧ (updateIncidentRun [⟨1, "Impresora dañada", none, Estado.abierta, 1, none, 2, 1, 0, 0⟩] 1
        ⟨none, none, none, some (-5), none, none⟩).1
      = [⟨1, "Impresora dañada", none, Estado.abierta, 1, some (-5), 2, 1, 0, 0⟩]
    ∧ ((-5 : Int) ≤ 0)
    ∧ validateIncidentData ⟨"Impresora dañada", none, none, 1, some (-5), 2, 1⟩
      = Except.error ⟨ErrKind.validation, "El ID del técnico de soporte debe ser válido"⟩ :=
  ⟨rfl, by decide, by decide, rfl⟩

/-- Claim C5 (amended): for every existing incident, `update` re-applies
create's validations only to the title (when truthy), the description
(when present) and the status (validated as a transition from the
current status); a violating supplied title, description or status
fails with a `ValidationError` and nothing is persisted, and when the
validations pass the supplied fields are persisted.  The supplied id
fields (`soporteId`, `categoriaId`, `prioridadId`) are not validated at
all — the validations do not even read them. -/
theorem C5_update_validations (st : Store) (id : Int) (u : UpdateInput)
    (inc : Incident) (h : portGetIncidentById st id = some inc) :
    (updateValidations inc.estado u = Except.ok () →
       (updateIncidentRun st id u).2 = Except.ok true
       ∧ portGetIncidentById (updateIncidentRun st id u).1 id = some (applyUpdate u inc))
    ∧ (∀ e : Err, updateValidations inc.estado u = Except.error e →
        updateIncidentRun st id u = (st, Except.error e) ∧ e.kind = ErrKind.validation)
    ∧ updateValidations inc.estado u
        = updateValidations inc.estado
            { u with soporteId := none, categoriaId := none, prioridadId := none } := by
  refine ⟨fun hok => ?_, fun e he => ?_, rfl⟩
  · have heq : updateIncidentRun st id u
        = (portUpdateWhere st id (applyUpdate u), Except.ok (portAffected st id)) := by
      rw [updateIncidentRun_eq st id u h, hok]
    rw [heq]
    constructor
    · rw [portAffected_of_find h]
    · refine portGet_portUpdateWhere ?_ h
      intro i
      rfl
  · refine ⟨?_, updateValidations_error_kind he⟩
    rw [updateIncidentRun_eq st id u h, he]

/-- Witness for C5 (amended): a full valid partial update of an open
incident. -/
theorem C5_update_validations_witness :
    portGetIncidentById [⟨1, "Impresora vieja", none, Estado.abierta, 1, none, 2, 1, 0, 0⟩] 1
        = some ⟨1, "Impresora vieja", none, Estado.abierta, 1, none, 2, 1, 0, 0⟩
    ∧ ((updateValidations Estado.abierta
          ⟨some "Impresora nueva", some "toner", some Estado.en_progreso, some 3, some 4, some 2⟩
          = Except.ok () →
        (updateIncidentRun [⟨1, "Impresora vieja", none, Estado.abierta, 1, none, 2, 1, 0, 0⟩] 1
            ⟨some "Impresora nueva", some "toner", some Estado.en_progreso, some 3, some 4, some 2⟩).2
          = Except.ok true
        ∧ portGetIncidentById
            (updateIncidentRun [⟨1, "Impresora vieja", none, Estado.abierta, 1, none, 2, 1, 0, 0⟩] 1
              ⟨some "Impresora nueva", some "toner", some Estado.en_progreso, some 3, some 4, some 2⟩).1 1
          = some (applyUpdate
              ⟨some "Impresora nueva", some "toner", some Estado.en_progreso, some 3, some 4, some 2⟩
              ⟨1, "Impresora vieja", none, Estado.abierta, 1, none, 2, 1, 0, 0⟩))
      ∧ (∀ e : Err, updateValidations Estado.abierta
            ⟨some "Impresora nueva", some "toner", some Estado.en_progreso, some 3, some 4, some 2⟩
            = Except.error e →
          updateIncidentRun [⟨1, "Impresora vieja", none, Estado.abierta, 1, none, 2, 1, 0, 0⟩] 1
              ⟨some "Impresora nueva", some "toner", some Estado.en_progreso, some 3, some 4, some 2⟩
            = ([⟨1, "Impresora vieja", none, Estado.abierta, 1, none, 2, 1, 0, 0⟩],
               Except.error e)
          ∧ e.kind = ErrKind.validation)
      ∧ updateValidations Estado.abierta
            ⟨some "Impresora nueva", some "toner", some Estado.en_progreso, some 3, some 4, some 2⟩
          = updateValidations Estado.abierta
              ⟨some "Impresora nueva", some "toner", some Estado.en_progreso, none, none, none⟩) :=
  ⟨by decide,
   C5_update_validations [⟨1, "Impresora vieja", none, Estado.abierta, 1, none, 2, 1, 0, 0⟩] 1
     ⟨some "Impresora nueva", some "toner", some Estado.en_progreso, some 3, some 4, some 2⟩
     ⟨1, "Impresora vieja", none, Estado.abierta, 1, none, 2, 1, 0, 0⟩ (by decide)⟩

/-- When creation's data validation passes, the raw title passed the
title validation and the reporter id is positive. -/
theorem validateIncidentData_ok_parts {inc : CreateInput}
    (h : validateIncidentData inc = Except.ok ()) :
    validateTitle inc.titulo = Except.ok () ∧ 0 < inc.usuarioId := by
  unfold validateIncidentData at h
  obtain ⟨-, h⟩ := seqE_eq_ok.mp h
  obtain ⟨ht, h⟩ := seqE_eq_ok.mp h
  obtain ⟨-, h⟩ := seqE_eq_ok.mp h
  obtain ⟨hu, -⟩ := seqE_eq_ok.mp h
  refine ⟨ht, ?_⟩
  have h2 := checkB_eq_ok.mp hu
  simp only [decide_eq_false_iff_not] at h2
  omega

/-- Claim C9: `create` fails with a `ValidationError` — persisting
nothing — whenever an assignee id is supplied equal to the reporter id
(the reporter id being positive once the data validations passed); and
when the assignee id is absent or different, the reporter-vs-assignee
rule accepts the input. -/
theorem C9_create_reporter_not_assignee (st : Store) (nextId now : Int)
    (inp : CreateInput) :
    (validateIncidentData inp = Except.ok () → inp.soporteId = some inp.usuarioId →
       createIncidentRun st nextId now inp
         = (st, Except.error ⟨ErrKind.validation,
             "El usuario reportador no puede ser el mismo que el técnico de soporte"⟩))
    ∧ (inp.soporteId ≠ some inp.usuarioId →
        validateReferences (normalizeCreate inp) = Except.ok ()) := by
  constructor
  · intro hv hs
    have hupos : 0 < inp.usuarioId := (validateIncidentData_ok_parts hv).2
    have hr : reporterIsAssignee (normalizeCreate inp) = true := by
      show (match inp.soporteId with
            | some s => s != 0 && s == inp.usuarioId
            | none => false) = true
      rw [hs]
      simp [hupos.ne']
    have hre : validateReferences (normalizeCreate inp)
        = Except.error ⟨ErrKind.validation,
            "El usuario reportador no puede ser el mismo que el técnico de soporte"⟩ := by
      unfold validateReferences checkB
      rw [hr, if_pos rfl]
    unfold createIncidentRun
    rw [hv, hre]
  · intro hne
    have hr : reporterIsAssignee (normalizeCreate inp) = false := by
      show (match inp.soporteId with
            | some s => s != 0 && s == inp.usuarioId
            | none => false) = false
      cases hsp : inp.soporteId with
      | none => rfl
      | some s =>
        have hsne : s ≠ inp.usuarioId := fun heq => hne (by rw [hsp, heq])
        simp [hsne]
    unfold validateReferences checkB
    rw [hr]
    rfl

/-- Witness for C9: a valid creation input whose assignee equals its
reporter is rejected against an empty store; flipping the assignee
passes the reference rule. -/
theorem C9_create_reporter_not_assignee_witness :
    validateIncidentData ⟨"Pantalla parpadea", none, none, 4, some 4, 2, 1⟩ = Except.ok ()
    ∧ ((validateIncidentData ⟨"Pantalla parpadea", none, none, 4, some 4, 2, 1⟩
          = Except.ok () →
        (⟨"Pantalla parpadea", none, none, 4, some 4, 2, 1⟩ : CreateInput).soporteId
          = some (⟨"Pantalla parpadea", none, none, 4, some 4, 2, 1⟩ : CreateInput).usuarioId →
        createIncidentRun [] 7 0 ⟨"Pantalla parpadea", none, none, 4, some 4, 2, 1⟩
          = ([], Except.error ⟨ErrKind.validation,
              "El usuario reportador no puede ser el mismo que el técnico de soporte"⟩))
      ∧ ((⟨"Pantalla parpadea", none, none, 4, some 4, 2, 1⟩ : CreateInput).soporteId
            ≠ some (⟨"Pantalla parpadea", none, none, 4, some 4, 2, 1⟩ : CreateInput).usuarioId →
          validateReferences (normalizeCreate ⟨"Pantalla parpadea", none, none, 4, some 4, 2, 1⟩)
            = Except.ok ())) :=
  ⟨rfl,
   C9_create_reporter_not_assignee [] 7 0 ⟨"Pantalla parpadea", none, none, 4, some 4, 2, 1⟩⟩

/-- Claim C10: `create` validates the raw, untrimmed title but persists
the trimmed title; in particular the padded title `"  ab "` (raw length
5) is accepted, and the stored title `"ab"` is shorter than the
5-character minimum. -/
theorem C10_create_trims_after_validation (st : Store) (nextId now : Int)
    (inp : CreateInput) :
    (∀ (st2 : Store) (r : Int), createIncidentRun st nextId now inp = (st2, Except.ok r) →
       st2 = st ++ [⟨nextId, jsTrim inp.titulo, inp.descripcion.map jsTrim,
                     inp.estado.getD Estado.abierta, inp.usuarioId, inp.soporteId,
                     inp.categoriaId, inp.prioridadId, now, now⟩]
       ∧ validateTitle inp.titulo = Except.ok ())
    ∧ ((createIncidentRun st nextId now ⟨"  ab ", none, none, 1, none, 2, 1⟩).2
        = Except.ok nextId
      ∧ (createIncidentRun st nextId now ⟨"  ab ", none, none, 1, none, 2, 1⟩).1
        = st ++ [⟨nextId, "ab", none, Estado.abierta, 1, none, 2, 1, now, now⟩]
      ∧ (jsTrim "  ab ").length < 5
      ∧ 5 ≤ ("  ab " : String).length) := by
  constructor
  · intro st2 r hrun
    cases hv : validateIncidentData inp with
    | error e =>
      have heq : createIncidentRun st nextId now inp = (st, Except.error e) := by
        unfold createIncidentRun
        rw [hv]
      rw [heq] at hrun
      injection hrun with h1 h2
      exact Except.noConfusion h2
    | ok u =>
      cases u
      cases hre : validateReferences (normalizeCreate inp) with
      | error e =>
        have heq : createIncidentRun st nextId now inp = (st, Except.error e) := by
          unfold createIncidentRun
          rw [hv, hre]
        rw [heq] at hrun
        injection hrun with h1 h2
        exact Except.noConfusion h2
      | ok u2 =>
        cases u2
        have heq : createIncidentRun st nextId now inp
            = (st ++ [⟨nextId, jsTrim inp.titulo, inp.descripcion.map jsTrim,
                       inp.estado.getD Estado.abierta, inp.usuarioId, inp.soporteId,
                       inp.categoriaId, inp.prioridadId, now, now⟩],
               Except.ok nextId) := by
          unfold createIncidentRun
          rw [hv, hre]
          rfl
        rw [heq] at hrun
        injection hrun with h1 h2
        exact ⟨h1.symm, (validateIncidentData_ok_parts hv).1⟩
  · have hv0 : validateIncidentData ⟨"  ab ", none, none, 1, none, 2, 1⟩ = Except.ok () := rfl
    have hre0 : validateReferences (normalizeCreate ⟨"  ab ", none, none, 1, none, 2, 1⟩)
        = Except.ok () := rfl
    have heq : createIncidentRun st nextId now ⟨"  ab ", none, none, 1, none, 2, 1⟩
        = (st ++ [⟨nextId, "ab", none, Estado.abierta, 1, none, 2, 1, now, now⟩],
           Except.ok nextId) := by
      unfold createIncidentRun
      rw [hv0, hre0]
      rfl
    rw [heq]
    exact ⟨rfl, rfl, by decide, by decide⟩

/-- Witness for C10 at the empty store, applying the general statement
to the padded-title input itself. -/
theorem C10_create_trims_after_validation_witness :
    createIncidentRun [] 7 0 ⟨"  ab ", none, none, 1, none, 2, 1⟩
      = ([⟨7, "ab", none, Estado.abierta, 1, none, 2, 1, 0, 0⟩], Except.ok 7)
    ∧ ((∀ (st2 : Store) (r : Int),
          createIncidentRun [] 7 0 ⟨"  ab ", none, none, 1, none, 2, 1⟩ = (st2, Except.ok r) →
          st2 = [] ++ [⟨7, jsTrim "  ab ", Option.map jsTrim none,
                        (Option.getD none Estado.abierta), 1, none, 2, 1, 0, 0⟩]
          ∧ validateTitle "  ab " = Except.ok ())
      ∧ ((createIncidentRun [] 7 0 ⟨"  ab ", none, none, 1, none, 2, 1⟩).2 = Except.ok 7
        ∧ (createIncidentRun [] 7 0 ⟨"  ab ", none, none, 1, none, 2, 1⟩).1
          = [] ++ [⟨7, "ab", none, Estado.abierta, 1, none, 2, 1, 0, 0⟩]
        ∧ (jsTrim "  ab ").length < 5
        ∧ 5 ≤ ("  ab " : String).length)) :=
  ⟨rfl, C10_create_trims_after_validation [] 7 0 ⟨"  ab ", none, none, 1, none, 2, 1⟩⟩

/-! Helper lemmas for the statistics aggregation. -/

/-- A sum of indicator terms is the length of the filtered list. -/
theorem sum_indicator_eq_length_filter {α : Type} (l : List α) (p : α → Bool) :
    (l.map (fun a => if p a then 1 else 0)).sum = (l.filter p).length := by
  induction l with
  | nil => rfl
  | cons a l ih =>
    rw [List.map_cons, List.sum_cons, List.filter_cons]
    cases hp : p a
    · simpa [hp] using ih
    · simp [hp, ih, Nat.add_comm]

/-- Dividing each summand is dividing the sum. -/
theorem sum_map_div {α : Type} (l : List α) (f : α → ℚ) (c : ℚ) :
    (l.map (fun a => f a / c)).sum = (l.map f).sum / c := by
  induction l with
  | nil => simp
  | cons a l ih => simp [ih, add_div]

/-- Summing truncated whole-hour differences equals summing the exact
per-row hour values when every duration is a whole number of hours. -/
theorem sum_tdiv_cast (l : List StatRow)
    (h : ∀ r ∈ l, (3600000 : Int) ∣ (r.actualizadoEn - r.creadoEn)) :
    (((l.map hourDiffSql).sum : Int) : ℚ) = (l.map memResolutionHours).sum := by
  induction l with
  | nil => simp
  | cons r rest ih =>
    rw [List.map_cons, List.map_cons, List.sum_cons, List.sum_cons, Int.cast_add,
        ih (fun x hx => h x (List.mem_cons_of_mem _ hx))]
    congr 1
    obtain ⟨c, hc⟩ := h r (List.mem_cons_self _ _)
    unfold hourDiffSql memResolutionHours
    rw [hc, Int.mul_tdiv_cancel_left _ (by norm_num)]
    push_cast
    rw [mul_div_cancel_left₀ _ (by norm_num : (3600000 : ℚ) ≠ 0)]

/-- Claim C3, counterexample: no statistics implementation in the
source returns the exact arithmetic mean of `(actualizadoEn -
creadoEn)` in hours.  The in-memory variant throws the wrapped
infrastructure error on every call (its select names the nonexistent
column `categoria.nombre_categoria`), and the grouped-SQL variant —
the one that executes — truncates each duration to whole hours via
`TIMESTAMPDIFF(HOUR, ...)`: a single closed incident resolved in 90
minutes yields 1, not the exact mean 3/2. -/
theorem C3_statistics_not_exact_mean :
    memStatsRun [⟨Estado.cerrada, 1, some "Red", 1, some "Alta", 0, 5400000⟩]
      = Except.error ⟨ErrKind.infra, "Error al obtener estadísticas de incidencias"⟩
    ∧ (sqlStats [⟨Estado.cerrada, 1, some "Red", 1, some "Alta", 0,
                  5400000⟩]).tiempoPromedioResolucion = some 1
    ∧ ((5400000 - 0 : Int) : ℚ) / 3600000 = 3 / 2
    ∧ (1 : ℚ) ≠ 3 / 2 := by
  refine ⟨rfl, ?_, by norm_num, by norm_num⟩
  have hstep : (sqlStats [(⟨Estado.cerrada, 1, some "Red", 1, some "Alta", 0,
      5400000⟩ : StatRow)]).tiempoPromedioResolucion
      = some ((((closedRows [(⟨Estado.cerrada, 1, some "Red", 1, some "Alta", 0,
                   5400000⟩ : StatRow)]).map hourDiffSql).sum : ℚ)
               / ((closedRows [(⟨Estado.cerrada, 1, some "Red", 1, some "Alta", 0,
                    5400000⟩ : StatRow)]).length : ℚ)) := by
    show (if 0 < sqlCountCase [(⟨Estado.cerrada, 1, some "Red", 1, some "Alta", 0,
             5400000⟩ : StatRow)] Estado.cerrada then some _ else none) = _
    rw [if_pos (by decide)]
  rw [hstep,
      show ((closedRows [(⟨Estado.cerrada, 1, some "Red", 1, some "Alta", 0,
        5400000⟩ : StatRow)]).map hourDiffSql).sum = 1 from by decide,
      show (closedRows [(⟨Estado.cerrada, 1, some "Red", 1, some "Alta", 0,
        5400000⟩ : StatRow)]).length = 1 from by decide]
  norm_num

/-- Claim C3 (amended): the in-memory variant of
`getIncidentStatistics` fails with the wrapped infrastructure error on
every call, so statistics are computed by the grouped-SQL variant.
That variant leaves `tiempoPromedioResolucion` absent exactly when the
filtered set has no closed incident; otherwise it averages the
per-incident durations truncated to whole hours, which equals the
exact arithmetic mean in hours — total milliseconds over
`3600000 · count` — whenever every closed incident's duration is a
whole number of hours; in particular a single closed incident created
at `T` and last updated at `T+3h` yields exactly 3. -/
theorem C3_statistics_resolution_average (rows : List StatRow) :
    memStatsRun rows
      = Except.error ⟨ErrKind.infra, "Error al obtener estadísticas de incidencias"⟩
    ∧ ((sqlStats rows).tiempoPromedioResolucion = none ↔ closedRows rows = [])
    ∧ (closedRows rows ≠ [] →
        (∀ r ∈ closedRows rows, (3600000 : Int) ∣ (r.actualizadoEn - r.creadoEn)) →
        (sqlStats rows).tiempoPromedioResolucion
          = some (((closedRows rows).map
                     (fun r => ((r.actualizadoEn - r.creadoEn : Int) : ℚ))).sum
                   / (3600000 * ((closedRows rows).length : ℚ))))
    ∧ (sqlStats [⟨Estado.cerrada, 2, some "Red", 1, some "Alta", 0,
                  10800000⟩]).tiempoPromedioResolucion = some 3 := by
  have hcc : sqlCountCase rows Estado.cerrada = (closedRows rows).length :=
    sum_indicator_eq_length_filter rows _
  have hsql : (sqlStats rows).tiempoPromedioResolucion
      = if 0 < sqlCountCase rows Estado.cerrada then
          some ((((closedRows rows).map hourDiffSql).sum : ℚ)
                 / ((closedRows rows).length : ℚ))
        else none := rfl
  refine ⟨rfl, ?_, fun hne hdvd => ?_, ?_⟩
  · rw [hsql, hcc]
    by_cases h0 : (closedRows rows).length = 0
    · rw [if_neg (by omega)]
      simp [List.length_eq_zero.mp h0]
    · rw [if_pos (by omega)]
      rw [List.length_eq_zero] at h0
      simp [h0]
  · have h0 : ¬((closedRows rows).length = 0) := by
      simpa [List.length_eq_zero] using hne
    rw [hsql, hcc, if_pos (by omega)]
    congr 1
    rw [sum_tdiv_cast _ hdvd]
    unfold memResolutionHours
    rw [sum_map_div, div_div]
  · have hstep : (sqlStats [(⟨Estado.cerrada, 2, some "Red", 1, some "Alta", 0,
        10800000⟩ : StatRow)]).tiempoPromedioResolucion
        = some ((((closedRows [(⟨Estado.cerrada, 2, some "Red", 1, some "Alta", 0,
                     10800000⟩ : StatRow)]).map hourDiffSql).sum : ℚ)
                 / ((closedRows [(⟨Estado.cerrada, 2, some "Red", 1, some "Alta", 0,
                      10800000⟩ : StatRow)]).length : ℚ)) := by
      show (if 0 < sqlCountCase [(⟨Estado.cerrada, 2, some "Red", 1, some "Alta", 0,
               10800000⟩ : StatRow)] Estado.cerrada then some _ else none) = _
      rw [if_pos (by decide)]
    rw [hstep,
        show ((closedRows [(⟨Estado.cerrada, 2, some "Red", 1, some "Alta", 0,
          10800000⟩ : StatRow)]).map hourDiffSql).sum = 3 from by decide,
        show (closedRows [(⟨Estado.cerrada, 2, some "Red", 1, some "Alta", 0,
          10800000⟩ : StatRow)]).length = 1 from by decide]
    norm_num

/-- Witness for C3 (amended) at a one-row set holding one closed
incident resolved in exactly two hours. -/
theorem C3_statistics_resolution_average_witness :
    closedRows [⟨Estado.cerrada, 1, some "Red", 2, some "Alta", 0, 7200000⟩] ≠ []
    ∧ (∀ r ∈ closedRows [⟨Estado.cerrada, 1, some "Red", 2, some "Alta", 0, 7200000⟩],
        (3600000 : Int) ∣ (r.actualizadoEn - r.creadoEn))
    ∧ (sqlStats [⟨Estado.cerrada, 1, some "Red", 2, some "Alta", 0,
                  7200000⟩]).tiempoPromedioResolucion
      = some (((closedRows [⟨Estado.cerrada, 1, some "Red", 2, some "Alta", 0, 7200000⟩]).map
                 (fun r => ((r.actualizadoEn - r.creadoEn : Int) : ℚ))).sum
               / (3600000 * ((closedRows
                    [⟨Estado.cerrada, 1, some "Red", 2, some "Alta", 0, 7200000⟩]).length : ℚ))) :=
  ⟨by decide, by decide,
   (C3_statistics_resolution_average
     [⟨Estado.cerrada, 1, some "Red", 2, some "Alta", 0, 7200000⟩]).2.2.1
     (by decide) (by decide)⟩

/-- Claim C4, counterexample: the two `getIncidentStatistics` variants
never compute equal results.  On a one-row set the grouped-SQL variant
returns an aggregate (total 1, one closed incident, average 3), while
the in-memory variant throws the wrapped infrastructure error — its
select names `categoria.nombre_categoria`, which is no column of the
`Category` entity. -/
theorem C4_sql_mem_disagree :
    memStatsRun [⟨Estado.cerrada, 2, some "Red", 1, some "Alta", 0, 10800000⟩]
      = Except.error ⟨ErrKind.infra, "Error al obtener estadísticas de incidencias"⟩
    ∧ (sqlStats [⟨Estado.cerrada, 2, some "Red", 1, some "Alta", 0, 10800000⟩]).total = 1
    ∧ (sqlStats [⟨Estado.cerrada, 2, some "Red", 1, some "Alta", 0, 10800000⟩]).cerradas = 1
    ∧ memStatsRun [⟨Estado.cerrada, 2, some "Red", 1, some "Alta", 0, 10800000⟩]
        ≠ Except.ok (sqlStats [⟨Estado.cerrada, 2, some "Red", 1, some "Alta", 0, 10800000⟩]) := by
  refine ⟨rfl, by decide, by decide, ?_⟩
  have he : memStatsRun [⟨Estado.cerrada, 2, some "Red", 1, some "Alta", 0, 10800000⟩]
      = Except.error ⟨ErrKind.infra, "Error al obtener estadísticas de incidencias"⟩ := rfl
  rw [he]
  simp

/-- Claim C4 (amended): the two implementation strategies of
`getIncidentStatistics` present in the source compute equal results on
no incident set: the in-memory variant's select names
`categoria.nombre_categoria`, which resolves against no column of the
`Category` entity (whose name column is `nombre`), so its query fails
and it throws the wrapped infrastructure error on every call, while
the grouped-SQL variant returns an aggregate. -/
theorem C4_inmemory_variant_always_errors (rows : List StatRow) :
    categoriaEntityColumns.contains "nombre_categoria" = false
    ∧ selectionResolves ("categoria", "nombre_categoria") = false
    ∧ memStatsSelect.all selectionResolves = false
    ∧ memStatsRun rows
        = Except.error ⟨ErrKind.infra, "Error al obtener estadísticas de incidencias"⟩
    ∧ memStatsRun rows ≠ Except.ok (sqlStats rows) := by
  refine ⟨by decide, by decide, by decide, rfl, ?_⟩
  have he : memStatsRun rows
      = Except.error ⟨ErrKind.infra, "Error al obtener estadísticas de incidencias"⟩ := rfl
  rw [he]
  simp

end GestionIncidencias
